import Mathlib

/-
  Verification development for the videojs-concurrence-limiter plugin
  (src/plugin.js). The plugin asks a remote authority whether playback may
  start, then runs a periodic watchdog that reports liveness and position,
  and tears the session down when authorization is lost, when too many
  consecutive update calls fail, or when the player is disposed.

  The embedding below translates the plugin source into pure Lean
  definitions: the watchdog is a state machine driven by external events
  (interval ticks, request resolutions, dispose and beforeunload triggers,
  timeupdate and loadedmetadata notifications), and every observable side
  effect (event triggers on the player, outgoing network requests, timer
  cancellation) is recorded in an action log.
-/

namespace ConcurrenceLimiter

/-- A parsed JSON response body, restricted to the fields the plugin reads.
`success` models the JS truthiness of the `success` field (false covers
absent, null, false, 0). `position` models the `position` field with 0 for
absent (JS falsy, as tested by `!info.position` in `recoverStatus`).
`error` distinguishes the `\x7berror: 'invalid body'\x7d` object that
`makeRequest` substitutes for an empty body. -/
structure JBody where
  success : Bool
  player : Option String
  token : Option String
  position : Nat
  error : Option String
deriving DecidableEq, Repr

/-- The raw body of an HTTP response as seen by the `makeRequest` callback:
empty (JS falsy body), a string that fails `JSON.parse`, or a string that
parses to a JSON object (represented already parsed). -/
inductive BodyKind
  | empty
  | malformed
  | json (j : JBody)
deriving DecidableEq, Repr

/-- Plugin options after validation (the `options` object used by
`ConcurrentViewPlugin`), with `playerID` already resolved by the id maker. -/
structure Opts where
  interval : Int
  accessurl : String
  updateurl : String
  disposeurl : String
  playerID : String
  startPosition : Nat
  maxUpdateFails : Nat
  requestTimeoutInMillis : Nat
deriving DecidableEq, Repr

/-- JS `a || b` for a possibly-absent string value: an absent or empty
string is falsy and yields the default. -/
def jsOrStr (v : Option String) (d : String) : String :=
  match v with
  | some s => if s.isEmpty then d else s
  | none => d

/-- JS `a || b` where both sides are possibly-absent strings
(`response.token || playerToken`). -/
def jsOrOpt (v : Option String) (d : Option String) : Option String :=
  match v with
  | some s => if s.isEmpty then d else some s
  | none => d

/-- The normalization performed by the `makeRequest` response handler
(plugin.js lines 100-111): the callback receives the transport error
message (or null) and the parsed body, where an empty body becomes the
object `\x7berror: 'invalid body', body\x7d` and a parse failure becomes
null. Both components are computed unconditionally, as in the source. -/
def makeRequestCb (err : Option String) (body : BodyKind) :
    Option String × Option JBody :=
  (err,
   match body with
   | .empty => some { success := false, player := none, token := none,
                      position := 0, error := some "invalid body" }
   | .malformed => none
   | .json j => some j)

/-- Observable actions of the plugin, in the order they happen: events
triggered on the player, outgoing network requests, and timer
cancellation. `validateReq` is the POST to accessurl, `updateReq` the POST
to updateurl, `releaseReq` the POST to disposeurl. `blockedEvtV` is the
avplayerbloked event from the validate path, where `blockPlayer` is called
as `blockPlayer('cantplay', error)` so the event code is the given string
and the reason falls back to the default message. `blockedEvtW` is the
avplayerbloked event from the watchdog paths, where `blockPlayer` is
called as `blockPlayer(player, tag, reasonObj)` so the player object lands
in the code field and the tag (authapifail or noauth) in the error field;
the tag is recorded. -/
inductive Act
  | validateReq (pid : String)
  | canplayEvt
  | blockedEvtV (code : String) (reason : String)
  | blockedEvtW (tag : String)
  | updateEvt (pid : String)
  | updateReq (pid : String) (token : Option String) (position : Nat) (paused : Bool)
  | clearTimer
  | releaseReq (pid : String) (position : Nat) (token : Option String)
deriving DecidableEq, Repr

/-- Default reason used by `blockPlayer` when none is supplied. -/
def defaultReason : String :=
  "Has alcanzado la cantidad maxima de players activos."

/-- The mutable state of `makeWatchdog` (plugin.js lines 195-311): the
closure variables (`lasTime`, `playerToken`, `playerID`, `loadedmetadata`,
`watchdog`, `pendingRequest`, `failedRequest`), the `fistSent` flag stored
on the plugin instance, the player-side facts the closure reads
(`disposed`, `paused`), plus the action log and a counter of resolved
update requests used to state the in-flight invariant. -/
structure WDState where
  pendingRequest : Bool
  failedRequest : Nat
  playerID : String
  playerToken : Option String
  lasTime : Nat
  loadedmetadata : Bool
  fistSent : Bool
  watchdog : Bool
  disposed : Bool
  paused : Bool
  resolvedCount : Nat
  log : List Act
deriving DecidableEq, Repr

/-- `cleanUp` (plugin.js lines 222-241): if the interval handle is still
set, clear it, null it out, and issue the release request to disposeurl
with the current id, last position and token. Otherwise do nothing. -/
def cleanUp (st : WDState) : WDState :=
  if st.watchdog then
    { st with watchdog := false,
              log := st.log ++ [.clearTimer,
                                .releaseReq st.playerID st.lasTime st.playerToken] }
  else st

/-- `blockPlayer` as invoked from the watchdog paths (plugin.js lines
155-170, called at 283 and 299): trigger avplayerbloked, pause and dispose
the player. Disposing fires the dispose hook installed at line 244, which
is `cleanUp`. -/
def blockPlayerW (tag : String) (st : WDState) : WDState :=
  cleanUp { st with log := st.log ++ [.blockedEvtW tag],
                    paused := true, disposed := true }

/-- The body of the update-response callback inside `wdf` (plugin.js lines
274-301): clear the in-flight flag; on a transport error, terminate if the
failure counter already reached maxUpdateFails and then increment it; on a
response, reset the counter, adopt returned player/token on success, and
terminate through the noauth path on any non-success response (including
the invalid-body object and a null parse result). -/
def updateResolve (o : Opts) (error : Option String) (response : Option JBody)
    (st : WDState) : WDState :=
  let st := { st with pendingRequest := false,
                      resolvedCount := st.resolvedCount + 1 }
  match error with
  | some _ =>
      let st := if o.maxUpdateFails ≤ st.failedRequest
                then blockPlayerW "authapifail" st else st
      { st with failedRequest := st.failedRequest + 1 }
  | none =>
      let st := { st with failedRequest := 0 }
      match response with
      | some r =>
          if r.success then
            { st with playerID := jsOrStr r.player st.playerID,
                      playerToken := jsOrOpt r.token st.playerToken }
          else blockPlayerW "noauth" st
      | none => blockPlayerW "noauth" st

/-- The watchdog tick function `wdf` (plugin.js lines 253-303): trigger
the avplayerupdate heartbeat event, then return early if a request is
already in flight, otherwise mark in flight and issue the update request
with the current id, token, position and play state. The response is
processed later by `updateResolve`. -/
def wdf (st : WDState) : WDState :=
  let st := { st with log := st.log ++ [Act.updateEvt st.playerID] }
  if st.pendingRequest then st
  else
    { st with pendingRequest := true,
              log := st.log ++ [Act.updateReq st.playerID st.playerToken
                                  st.lasTime st.paused] }

/-- The timeupdate handler (plugin.js lines 208-217): until metadata has
loaded, or on the very first notification (`fistSent` not yet set), only
set `fistSent` and return; afterwards record the rounded current time. -/
def onTimeupdate (cur : Nat) (st : WDState) : WDState :=
  if !st.loadedmetadata || !st.fistSent then { st with fistSent := true }
  else { st with lasTime := cur }

/-- External events driving the watchdog state machine: an interval tick,
the resolution of the outstanding update request (with transport error and
raw body), the player dispose event, the page beforeunload event, a
timeupdate notification carrying the rounded current time, the
loadedmetadata notification, and a change of the paused state. -/
inductive XEvent
  | tick
  | resolve (err : Option String) (body : BodyKind)
  | disposeEvt
  | beforeunload
  | timeupdate (cur : Nat)
  | loadedmetadataEvt
  | playstate (paused : Bool)
deriving DecidableEq, Repr

/-- One event step of the watchdog machine. A tick runs `wdf` only while
the interval is alive (`cleanUp` cancels it). A resolution is processed
through the `makeRequest` normalization and the `wdf` callback; it can
only occur while a request is outstanding. Dispose and beforeunload both
run the `cleanUp` hook (lines 244-245). -/
def step (o : Opts) (st : WDState) : XEvent → WDState
  | .tick => if st.watchdog then wdf st else st
  | .resolve err body =>
      if st.pendingRequest then
        updateResolve o (makeRequestCb err body).1 (makeRequestCb err body).2 st
      else st
  | .disposeEvt => cleanUp st
  | .beforeunload => cleanUp st
  | .timeupdate cur => onTimeupdate cur st
  | .loadedmetadataEvt => { st with loadedmetadata := true }
  | .playstate b => { st with paused := b }

/-- Run the machine over a list of external events. -/
def run (o : Opts) (st : WDState) (evs : List XEvent) : WDState :=
  evs.foldl (step o) st

/-- The watchdog closure state right after the declarations at the top of
`makeWatchdog` (lines 197-250): `lasTime = options.startPosition || 0`,
no token yet, no request in flight, zero failures, metadata not loaded,
`fistSent` unset, the interval handle just created by `player.setInterval`
(line 305), the player not disposed and initially paused. -/
def initWDState (o : Opts) : WDState :=
  { pendingRequest := false, failedRequest := 0, playerID := o.playerID,
    playerToken := none, lasTime := o.startPosition, loadedmetadata := false,
    fistSent := false, watchdog := true, disposed := false, paused := true,
    resolvedCount := 0, log := [] }

/-- The state of a freshly started watchdog: `makeWatchdog` creates the
interval and then calls `wdf()` once synchronously (line 308), so the
first update request is already outstanding. -/
def startState (o : Opts) : WDState := wdf (initWDState o)

/- ## Position recovery (`recoverStatus`, plugin.js lines 177-186) -/

/-- The state touched by `recoverStatus`. `playerCurrentTimeProp` is the
`currentTime` own property of the player object: the source assigns
`this.player.currentTime = info.position`, a plain property assignment
that shadows the videojs `currentTime` method and does not seek.
`playbackPosition` is the actual media playback position, which only a
call of the `currentTime` method with an argument would change.
`pluginCurrentTime` is the `currentTime` field of the plugin instance:
inside the arrow function registered on loadedmetadata, `this` is the
`ConcurrentViewPlugin` instance, so `this.currentTime = info.position`
writes there. -/
structure RecoverState where
  playerCurrentTimeProp : Option Nat
  playbackPosition : Nat
  pluginCurrentTime : Option Nat
  lmHandlerRegistered : Bool
deriving DecidableEq, Repr

/-- The state before `recoverStatus` runs. -/
def recoverInit : RecoverState :=
  { playerCurrentTimeProp := none, playbackPosition := 0,
    pluginCurrentTime := none, lmHandlerRegistered := false }

/-- `recoverStatus(info)`: return unless `info.position` is truthy;
otherwise assign `info.position` to the currentTime property of the
player immediately and register a loadedmetadata handler. -/
def recoverStatus (info : JBody) (st : RecoverState) : RecoverState :=
  if info.position = 0 then st
  else { st with playerCurrentTimeProp := some info.position,
                 lmHandlerRegistered := true }

/-- Firing the loadedmetadata event after `recoverStatus`: the registered
handler is `() => this.currentTime = info.position`, which writes the
plugin instance field, not the player. -/
def recoverOnLoadedmetadata (info : JBody) (st : RecoverState) : RecoverState :=
  if st.lmHandlerRegistered
  then { st with pluginCurrentTime := some info.position }
  else st

/- ## Startup pipeline (`concurrenceLimiter`, `onPlayerReady`,
     `validatePlay`, plugin.js lines 119-146 and 326-381) -/

/-- User-supplied plugin options; `none` is an absent key. -/
structure UserOpts where
  interval : Option Int
  accessurl : Option String
  updateurl : Option String
  disposeurl : Option String
  playerID : Option String
  startPosition : Option Nat
  maxUpdateFails : Option Nat
  requestTimeoutInMillis : Option Nat
deriving DecidableEq, Repr

/-- Options after `videojs.mergeOptions(defaults, useroptions)`: user
values override the defaults declared at the top of plugin.js; the three
URLs and playerID default to null. -/
structure MergedOpts where
  interval : Int
  accessurl : Option String
  updateurl : Option String
  disposeurl : Option String
  playerID : Option String
  startPosition : Nat
  maxUpdateFails : Nat
  requestTimeoutInMillis : Nat
deriving DecidableEq, Repr

/-- `videojs.mergeOptions(defaults, useroptions)` on the flat defaults
object (plugin.js lines 4-13). -/
def mergeOptions (u : UserOpts) : MergedOpts :=
  { interval := u.interval.getD 10,
    accessurl := u.accessurl,
    updateurl := u.updateurl,
    disposeurl := u.disposeurl,
    playerID := u.playerID,
    startPosition := u.startPosition.getD 0,
    maxUpdateFails := u.maxUpdateFails.getD 1,
    requestTimeoutInMillis := u.requestTimeoutInMillis.getD 15000 }

/-- JS falsiness of a possibly-absent string (null, undefined or empty). -/
def strFalsy : Option String → Bool
  | none => true
  | some s => s.isEmpty

/-- Base-32 digit character as produced by `Number.prototype.toString(32)`
(digits 0-9 then letters a-v). -/
def digitChar (d : Nat) : Char :=
  if d < 10 then Char.ofNat (48 + d) else Char.ofNat (87 + d)

/-- The 11 base-32 fraction digits of `m / 32 ^ 11`, most significant
first. -/
def fracDigitsBE (m : Nat) : List Nat :=
  (List.range 11).map (fun i => m / 32 ^ (10 - i) % 32)

/-- Drop trailing zero digits, as `toString` prints no trailing zeros. -/
def stripTrailing (l : List Nat) : List Nat :=
  (l.reverse.dropWhile (fun d => d = 0)).reverse

/-- `generateRandom` (plugin.js lines 44-46) as called with no argument:
`Math.random().toString(32).substr(2)`. `Math.random()` returns `k / 2^53`
with `k < 2^53`; its exact base-32 expansion is `4*k / 32^11`, printed as
`0.` followed by the fraction digits without trailing zeros (just `0` when
k = 0), and `substr(2)` strips the leading `0.`. -/
def generateRandom (k : Nat) : String :=
  String.mk ((stripTrailing (fracDigitsBE (4 * k))).map digitChar)

/-- `generateBySessionStorage` (plugin.js lines 52-66): null when
sessionStorage is unavailable; otherwise the stored id if truthy, else a
fresh `ssi-` id which is also stored. `stored` is the value currently
under the fixed key, `rnd` the output of `generateRandom`. -/
def generateBySessionStorage (hasStorage : Bool) (stored : Option String)
    (rnd : String) : Option String :=
  if !hasStorage then none
  else
    match stored with
    | some id => if id.isEmpty then some ("ssi-" ++ rnd) else some id
    | none => some ("ssi-" ++ rnd)

/-- The fallback of `generate`:
`this.generateBySessionStorage() || ('rdm-' + this.generateRandom())`. -/
def generateFallback (hasStorage : Bool) (stored : Option String)
    (rnd : String) : String :=
  jsOrStr (generateBySessionStorage hasStorage stored rnd) ("rdm-" ++ rnd)

/-- `generate` (plugin.js lines 29-37): a truthy user-made id wins,
otherwise the storage-backed or random fallback. -/
def generate (userPid : Option String) (hasStorage : Bool)
    (stored : Option String) (rnd : String) : String :=
  match userPid with
  | some p => if p.isEmpty then generateFallback hasStorage stored rnd else p
  | none => generateFallback hasStorage stored rnd

/-- Result of running the startup pipeline: the action log, the watchdog
state when one was constructed and started, and the player/plugin fields
touched by `recoverStatus`. -/
structure InitState where
  log : List Act
  session : Option WDState
  recover : RecoverState
deriving DecidableEq, Repr

/-- The result of `concurrenceLimiter` when it returns at one of the two
validation guards: nothing was logged (in particular no network request)
and no session or watchdog was constructed. -/
def abortedInit : InitState :=
  { log := [], session := none, recover := recoverInit }

/-- `onPlayerReady` together with `validatePlay` (plugin.js lines 119-146
and 326-347), given the resolution of the validate request. On a transport
error or a non-success body, the callback receives an error and
`blockPlayer('cantplay', error)` runs: the avplayerbloked event fires with
code cantplay and the default reason, and no watchdog is constructed. On
success the callback runs `recoverStatus` and `makeWatchdog` (whose
initial `wdf()` call already logs the heartbeat event and the first update
request), and only then does `validatePlay` trigger avplayercanplay. -/
def onPlayerReadyRun (o : Opts) (err : Option String) (body : BodyKind) :
    InitState :=
  let r := makeRequestCb err body
  match r.1 with
  | some _ =>
      { log := [.validateReq o.playerID, .blockedEvtV "cantplay" defaultReason],
        session := none, recover := recoverInit }
  | none =>
      match r.2 with
      | some ok =>
          if ok.success then
            let s := startState o
            { log := .validateReq o.playerID :: (s.log ++ [.canplayEvt]),
              session := some s,
              recover := recoverStatus ok recoverInit }
          else
            { log := [.validateReq o.playerID,
                      .blockedEvtV "cantplay" defaultReason],
              session := none, recover := recoverInit }
      | none =>
          { log := [.validateReq o.playerID,
                    .blockedEvtV "cantplay" defaultReason],
            session := none, recover := recoverInit }

/-- `concurrenceLimiter` (plugin.js lines 361-381): merge the defaults,
return before any network activity when a URL is missing or the interval
is falsy or below 5, otherwise resolve the player id and run
`onPlayerReady`. `hasStorage`, `stored` and `rnd` parametrize the id
maker; `err` and `body` are the resolution of the validate request. -/
def concurrenceLimiterRun (u : UserOpts) (hasStorage : Bool)
    (stored : Option String) (rnd : String)
    (err : Option String) (body : BodyKind) : InitState :=
  let o := mergeOptions u
  if strFalsy o.accessurl || strFalsy o.updateurl || strFalsy o.disposeurl then
    abortedInit
  else if o.interval == 0 || o.interval < 5 then
    abortedInit
  else
    onPlayerReadyRun
      { interval := o.interval,
        accessurl := o.accessurl.getD "",
        updateurl := o.updateurl.getD "",
        disposeurl := o.disposeurl.getD "",
        playerID := generate o.playerID hasStorage stored rnd,
        startPosition := o.startPosition,
        maxUpdateFails := o.maxUpdateFails,
        requestTimeoutInMillis := o.requestTimeoutInMillis }
      err body

/- ## Helper predicates and counters over the action log -/

/-- Is this action the update request to updateurl? -/
def isUpdReq : Act → Bool
  | .updateReq _ _ _ _ => true
  | _ => false

/-- Is this action the release request to disposeurl? -/
def isRel : Act → Bool
  | .releaseReq _ _ _ => true
  | _ => false

/-- Is this action the cancellation of the cadence interval? -/
def isClear : Act → Bool
  | .clearTimer => true
  | _ => false

/-- Number of update requests in a log. -/
def updReqCount (l : List Act) : Nat := l.countP isUpdReq

/-- Number of release requests in a log. -/
def relCount (l : List Act) : Nat := l.countP isRel

/-- True when the first timer cancellation in the log comes before the
first release request (vacuously true when there is no release request,
false on a release request never preceded by a cancellation). -/
def clearBeforeRel : List Act → Bool
  | [] => true
  | a :: rest =>
      if isClear a then true
      else if isRel a then false
      else clearBeforeRel rest

/-- Number of update requests in flight, read off the in-flight flag. -/
def inflight (st : WDState) : Nat := if st.pendingRequest then 1 else 0

/-- A concrete valid configuration used for witnesses. -/
def o0 : Opts :=
  { interval := 10, accessurl := "https://e/access",
    updateurl := "https://e/update", disposeurl := "https://e/dispose",
    playerID := "p1", startPosition := 0, maxUpdateFails := 1,
    requestTimeoutInMillis := 15000 }

/-- A successful update response body with no player or token fields. -/
def okResp : JBody :=
  { success := true, player := none, token := none, position := 0,
    error := none }

/-- A well-formed response that explicitly denies authorization. -/
def deniedResp : JBody :=
  { success := false, player := none, token := none, position := 0,
    error := none }

/-- A successful validate response carrying a recovered position of 45
seconds. -/
def okPos45 : JBody :=
  { success := true, player := none, token := some "T1", position := 45,
    error := none }

/-- The trace of n consecutive transport failures of the update call:
starting from a state with a request outstanding, each cycle resolves the
outstanding request with a transport error and then lets the next interval
tick issue the next request. -/
def failTrace : Nat → List XEvent
  | 0 => []
  | n + 1 => failTrace n ++ [.resolve (some "TIMEDOUT") .empty, .tick]

/- ## Basic facts about the transition functions -/

lemma cleanUp_facts (st : WDState) :
    updReqCount (cleanUp st).log = updReqCount st.log ∧
    (cleanUp st).pendingRequest = st.pendingRequest ∧
    (cleanUp st).resolvedCount = st.resolvedCount ∧
    (cleanUp st).watchdog = false ∧
    (cleanUp st).disposed = st.disposed ∧
    (cleanUp st).failedRequest = st.failedRequest := by
  cases hw : st.watchdog <;>
    simp [cleanUp, hw, updReqCount, List.countP_append, List.countP_cons, isUpdReq]

lemma blockPlayerW_facts (tag : String) (st : WDState) :
    updReqCount (blockPlayerW tag st).log = updReqCount st.log ∧
    (blockPlayerW tag st).pendingRequest = st.pendingRequest ∧
    (blockPlayerW tag st).resolvedCount = st.resolvedCount ∧
    (blockPlayerW tag st).disposed = true ∧
    (blockPlayerW tag st).failedRequest = st.failedRequest ∧
    Act.blockedEvtW tag ∈ (blockPlayerW tag st).log := by
  cases hw : st.watchdog <;>
    simp [blockPlayerW, cleanUp, hw, updReqCount, List.countP_append,
          List.countP_cons, isUpdReq]

lemma updateResolve_facts (o : Opts) (err : Option String) (resp : Option JBody)
    (st : WDState) :
    updReqCount (updateResolve o err resp st).log = updReqCount st.log ∧
    (updateResolve o err resp st).pendingRequest = false ∧
    (updateResolve o err resp st).resolvedCount = st.resolvedCount + 1 := by
  cases err with
  | some m =>
      by_cases hb : o.maxUpdateFails ≤ st.failedRequest
      · have h := blockPlayerW_facts "authapifail"
          { st with pendingRequest := false,
                    resolvedCount := st.resolvedCount + 1 }
        simp only [updateResolve, hb, if_true] at *
        exact ⟨h.1, h.2.1, h.2.2.1⟩
      · simp [updateResolve, hb]
  | none =>
      cases resp with
      | some r =>
          by_cases hs : r.success
          · simp [updateResolve, hs]
          · have h := blockPlayerW_facts "noauth"
              { st with pendingRequest := false,
                        resolvedCount := st.resolvedCount + 1,
                        failedRequest := 0 }
            simp only [updateResolve, hs, Bool.false_eq_true, if_false] at *
            exact ⟨h.1, h.2.1, h.2.2.1⟩
      | none =>
          have h := blockPlayerW_facts "noauth"
            { st with pendingRequest := false,
                      resolvedCount := st.resolvedCount + 1,
                      failedRequest := 0 }
          simp only [updateResolve] at *
          exact ⟨h.1, h.2.1, h.2.2.1⟩

lemma wdf_pending (st : WDState) : (wdf st).pendingRequest = true := by
  by_cases h : st.pendingRequest <;> simp [wdf, h]

lemma wdf_fields (st : WDState) :
    (wdf st).failedRequest = st.failedRequest ∧
    (wdf st).watchdog = st.watchdog ∧
    (wdf st).disposed = st.disposed ∧
    (wdf st).resolvedCount = st.resolvedCount := by
  by_cases h : st.pendingRequest <;> simp [wdf, h]

lemma wdf_count (st : WDState) :
    updReqCount (wdf st).log =
      updReqCount st.log + (if st.pendingRequest then 0 else 1) := by
  by_cases h : st.pendingRequest <;>
    simp [wdf, h, updReqCount, List.countP_append, List.countP_cons, isUpdReq]

/-- C10: on every invocation of the watchdog tick function, including
invocations dropped because a request is in flight, exactly one
avplayerupdate heartbeat event carrying the current playerID is emitted,
and it is emitted before the in-flight check: the appended log always
starts with the heartbeat event, and when the in-flight flag is set the
tick changes nothing beyond appending that single event (in particular it
issues no request). -/
theorem C10_heartbeat_on_every_tick (st : WDState) :
    ((wdf st).log = st.log ++ [Act.updateEvt st.playerID] ++
      (if st.pendingRequest then []
       else [Act.updateReq st.playerID st.playerToken st.lasTime st.paused])) ∧
    wdf { st with pendingRequest := true } =
      { st with pendingRequest := true,
                log := st.log ++ [Act.updateEvt st.playerID] } := by
  constructor
  · by_cases h : st.pendingRequest <;> simp [wdf, h]
  · simp [wdf]

/-- C2: an update response that arrives without transport error and parses
to a JSON body with a falsy success field makes the watchdog invoke the
termination path (the player is disposed and the avplayerbloked event from
the noauth call of blockPlayer is triggered) immediately, for every state
with a request outstanding, hence regardless of the consecutive-failure
counter. -/
theorem C2_explicit_denial_terminates (o : Opts) (st : WDState) (j : JBody)
    (hp : st.pendingRequest = true) (hs : j.success = false) :
    (step o st (.resolve none (.json j))).disposed = true ∧
    Act.blockedEvtW "noauth" ∈ (step o st (.resolve none (.json j))).log := by
  have h := blockPlayerW_facts "noauth"
    { st with pendingRequest := false,
              resolvedCount := st.resolvedCount + 1,
              failedRequest := 0 }
  simp only [step, hp, if_true, makeRequestCb, updateResolve, hs,
             Bool.false_eq_true, if_false]
  exact ⟨h.2.2.2.1, h.2.2.2.2.2⟩

/-- C2 witness: on the very first tick of a fresh session (failure counter
zero), an explicit denial response terminates at once. -/
theorem C2_witness :
    (startState o0).pendingRequest = true ∧ deniedResp.success = false ∧
    (startState o0).failedRequest = 0 ∧
    ((step o0 (startState o0) (.resolve none (.json deniedResp))).disposed = true ∧
     Act.blockedEvtW "noauth" ∈
       (step o0 (startState o0) (.resolve none (.json deniedResp))).log) :=
  ⟨by decide, by decide, by decide,
   C2_explicit_denial_terminates o0 (startState o0) deniedResp
     (by decide) (by decide)⟩

/-- C3 counterexample: with the default maxUpdateFails = 1 and a fresh
session whose first update response arrives without transport error but
with an empty body, the code terminates the session immediately (the
player is disposed on the very first response, with the failure counter
still at zero and the threshold not exceeded), contradicting the claim
that such an outcome is a tolerated failure that merely feeds the
consecutive-failure counter. -/
theorem C3_counterexample :
    (startState o0).failedRequest = 0 ∧ o0.maxUpdateFails = 1 ∧
    (step o0 (startState o0) (.resolve none .empty)).disposed = true ∧
    Act.blockedEvtW "noauth" ∈
      (step o0 (startState o0) (.resolve none .empty)).log := by
  decide

/-- C3 amended: an update response that arrives without transport error
but whose body is empty or fails to parse is treated as an immediate
authoritative denial, exactly like an explicit non-success response: the
callback sees a non-success value (the invalid-body object, which does
carry the descriptive reason, or null), the consecutive-failure counter is
reset to zero rather than incremented, and the noauth termination path
runs at once. Only transport errors feed the consecutive-failure
counter. -/
theorem C3_amended_invalid_body_is_denial (o : Opts) (st : WDState)
    (body : BodyKind) (hp : st.pendingRequest = true)
    (hb : body = BodyKind.empty ∨ body = BodyKind.malformed) :
    (step o st (.resolve none body)).disposed = true ∧
    Act.blockedEvtW "noauth" ∈ (step o st (.resolve none body)).log ∧
    (step o st (.resolve none body)).failedRequest = 0 := by
  have h := blockPlayerW_facts "noauth"
    { st with pendingRequest := false,
              resolvedCount := st.resolvedCount + 1,
              failedRequest := 0 }
  rcases hb with hb | hb <;> subst hb <;>
    simp only [step, hp, if_true, makeRequestCb, updateResolve,
               Bool.false_eq_true, if_false] <;>
    exact ⟨h.2.2.2.1, h.2.2.2.2.2, h.2.2.2.2.1⟩

/-- C3 amended witness: a fresh session receiving an unparsable body on
its first response is disposed at once with the counter at zero. -/
theorem C3_amended_witness :
    (startState o0).pendingRequest = true ∧
    ((step o0 (startState o0) (.resolve none .malformed)).disposed = true ∧
     Act.blockedEvtW "noauth" ∈
       (step o0 (startState o0) (.resolve none .malformed)).log ∧
     (step o0 (startState o0) (.resolve none .malformed)).failedRequest = 0) :=
  ⟨by decide,
   C3_amended_invalid_body_is_denial o0 (startState o0) BodyKind.malformed
     (by decide) (Or.inr rfl)⟩

/- ## Consecutive transport failures (claim C1) -/

lemma failTrace_run (o : Opts) (n : Nat) (hn : n ≤ o.maxUpdateFails) :
    (run o (startState o) (failTrace n)).pendingRequest = true ∧
    (run o (startState o) (failTrace n)).failedRequest = n ∧
    (run o (startState o) (failTrace n)).watchdog = true ∧
    (run o (startState o) (failTrace n)).disposed = false := by
  induction n with
  | zero => simp [failTrace, run, startState, wdf, initWDState]
  | succ m ih =>
      obtain ⟨h1, h2, h3, h4⟩ := ih (Nat.le_of_succ_le hn)
      have hsplit : run o (startState o) (failTrace (m + 1)) =
          step o (step o (run o (startState o) (failTrace m))
            (.resolve (some "TIMEDOUT") .empty)) .tick := by
        simp [failTrace, run, List.foldl_append]
      rw [hsplit]
      set s := run o (startState o) (failTrace m) with hs
      have hlt : ¬ (o.maxUpdateFails ≤ s.failedRequest) := by
        rw [h2]; omega
      have e1 : step o s (.resolve (some "TIMEDOUT") .empty) =
          { s with pendingRequest := false,
                   resolvedCount := s.resolvedCount + 1,
                   failedRequest := s.failedRequest + 1 } := by
        simp [step, h1, updateResolve, makeRequestCb, hlt]
      rw [e1]
      simp [step, h3, wdf, h2, h4]

/-- C1: with maxUpdateFails = N, after N consecutive transport failures of
the update call the watchdog interval is still alive and the player is not
disposed, with the counter at N; the next (N+1)th consecutive transport
failure runs the termination path (the player is disposed via the
authapifail call of blockPlayer); and a successful update arriving after k
consecutive failures for any k up to N resets the counter to zero with no
termination (interval alive, player not disposed). -/
theorem C1_failure_tolerance_threshold (o : Opts) (N : Nat)
    (hN : o.maxUpdateFails = N) :
    ((run o (startState o) (failTrace N)).watchdog = true ∧
     (run o (startState o) (failTrace N)).disposed = false ∧
     (run o (startState o) (failTrace N)).failedRequest = N) ∧
    ((run o (startState o)
        (failTrace N ++ [.resolve (some "TIMEDOUT") .empty])).disposed = true ∧
     Act.blockedEvtW "authapifail" ∈
       (run o (startState o)
         (failTrace N ++ [.resolve (some "TIMEDOUT") .empty])).log) ∧
    (∀ k, k ≤ N →
      (run o (startState o)
        (failTrace k ++ [.resolve none (.json okResp)])).failedRequest = 0 ∧
      (run o (startState o)
        (failTrace k ++ [.resolve none (.json okResp)])).disposed = false ∧
      (run o (startState o)
        (failTrace k ++ [.resolve none (.json okResp)])).watchdog = true) := by
  subst hN
  obtain ⟨h1, h2, h3, h4⟩ := failTrace_run o o.maxUpdateFails le_rfl
  refine ⟨⟨h3, h4, h2⟩, ?_, ?_⟩
  · have hsplit : run o (startState o)
        (failTrace o.maxUpdateFails ++ [.resolve (some "TIMEDOUT") .empty]) =
        step o (run o (startState o) (failTrace o.maxUpdateFails))
          (.resolve (some "TIMEDOUT") .empty) := by
      simp [run, List.foldl_append]
    rw [hsplit]
    set s := run o (startState o) (failTrace o.maxUpdateFails) with hs
    have hge : o.maxUpdateFails ≤ s.failedRequest := by rw [h2]
    have h := blockPlayerW_facts "authapifail"
      { s with pendingRequest := false, resolvedCount := s.resolvedCount + 1 }
    simp only [step, h1, if_true, makeRequestCb, updateResolve, hge]
    exact ⟨h.2.2.2.1, h.2.2.2.2.2⟩
  · intro k hk
    obtain ⟨g1, g2, g3, g4⟩ := failTrace_run o k hk
    have hsplit : run o (startState o)
        (failTrace k ++ [.resolve none (.json okResp)]) =
        step o (run o (startState o) (failTrace k))
          (.resolve none (.json okResp)) := by
      simp [run, List.foldl_append]
    rw [hsplit]
    simp [step, g1, updateResolve, makeRequestCb, okResp, g3, g4]

/-- C1 witness at the default configuration maxUpdateFails = 1: one
failure leaves the watchdog running with counter 1, the second consecutive
failure disposes the player, and a success after one failure resets the
counter to zero without termination. -/
theorem C1_witness :
    o0.maxUpdateFails = 1 ∧
    (run o0 (startState o0) (failTrace 1)).watchdog = true ∧
    (run o0 (startState o0) (failTrace 1)).disposed = false ∧
    (run o0 (startState o0) (failTrace 1)).failedRequest = 1 ∧
    (run o0 (startState o0)
      (failTrace 1 ++ [.resolve (some "TIMEDOUT") .empty])).disposed = true ∧
    (run o0 (startState o0)
      (failTrace 1 ++ [.resolve none (.json okResp)])).failedRequest = 0 ∧
    (run o0 (startState o0)
      (failTrace 1 ++ [.resolve none (.json okResp)])).disposed = false :=
  ⟨rfl,
   (C1_failure_tolerance_threshold o0 1 rfl).1.1,
   (C1_failure_tolerance_threshold o0 1 rfl).1.2.2.symm ▸
     (C1_failure_tolerance_threshold o0 1 rfl).1.2.1,
   (C1_failure_tolerance_threshold o0 1 rfl).1.2.2,
   (C1_failure_tolerance_threshold o0 1 rfl).2.1.1,
   ((C1_failure_tolerance_threshold o0 1 rfl).2.2 1 le_rfl).1,
   ((C1_failure_tolerance_threshold o0 1 rfl).2.2 1 le_rfl).2.1⟩

/- ## Release fired exactly once, after timer cancellation (claim C4) -/

/-- Invariant tying the interval handle to the release request: while the
interval is alive no release was sent; once it is cleared exactly one
release was sent; and any release in the log is preceded by a timer
cancellation. -/
def relInv (st : WDState) : Prop :=
  ((st.watchdog = true ∧ relCount st.log = 0) ∨
   (st.watchdog = false ∧ relCount st.log = 1)) ∧
  clearBeforeRel st.log = true

lemma clearBeforeRel_of_norel (m : List Act) (hm : ∀ a ∈ m, isRel a = false) :
    clearBeforeRel m = true := by
  induction m with
  | nil => simp [clearBeforeRel]
  | cons b t ih =>
      by_cases hc : isClear b
      · simp [clearBeforeRel, hc]
      · have hb : isRel b = false := hm b (by simp)
        simp only [clearBeforeRel, hc, if_false, hb, Bool.false_eq_true]
        exact ih (fun a ha => hm a (by simp [ha]))

lemma clearBeforeRel_append_norel (l m : List Act)
    (h : clearBeforeRel l = true) (hm : ∀ a ∈ m, isRel a = false) :
    clearBeforeRel (l ++ m) = true := by
  induction l with
  | nil => simpa using clearBeforeRel_of_norel m hm
  | cons a t ih =>
      by_cases hc : isClear a
      · simp [clearBeforeRel, hc]
      · by_cases hr : isRel a
        · simp [clearBeforeRel, hc, hr] at h
        · simp only [clearBeforeRel, hc, hr, if_false, Bool.false_eq_true,
                     List.cons_append] at h ⊢
          exact ih h

lemma clearBeforeRel_append_clear (l m : List Act)
    (h : clearBeforeRel l = true) :
    clearBeforeRel (l ++ Act.clearTimer :: m) = true := by
  induction l with
  | nil => simp [clearBeforeRel, isClear]
  | cons a t ih =>
      by_cases hc : isClear a
      · simp [clearBeforeRel, hc]
      · by_cases hr : isRel a
        · simp [clearBeforeRel, hc, hr] at h
        · simp only [clearBeforeRel, hc, hr, if_false, Bool.false_eq_true,
                     List.cons_append] at h ⊢
          exact ih h

lemma relInv_extend (st st' : WDState) (m : List Act)
    (hw : st'.watchdog = st.watchdog) (hl : st'.log = st.log ++ m)
    (hm : ∀ a ∈ m, isRel a = false) (h : relInv st) : relInv st' := by
  obtain ⟨hcase, hord⟩ := h
  have hcount : relCount st'.log = relCount st.log := by
    have : m.countP isRel = 0 := by
      rw [List.countP_eq_zero]
      intro a ha
      simp [hm a ha]
    simp [hl, relCount, List.countP_append, this]
  constructor
  · rcases hcase with ⟨ht, hc⟩ | ⟨ht, hc⟩
    · exact Or.inl ⟨hw.trans ht, hcount.trans hc⟩
    · exact Or.inr ⟨hw.trans ht, hcount.trans hc⟩
  · rw [hl]
    exact clearBeforeRel_append_norel _ _ hord hm

lemma relInv_cleanUp (st : WDState) (h : relInv st) : relInv (cleanUp st) := by
  cases hw : st.watchdog
  · have : cleanUp st = st := by simp [cleanUp, hw]
    rw [this]; exact h
  · obtain ⟨hcase, hord⟩ := h
    rcases hcase with ⟨_, hc⟩ | ⟨hf, _⟩
    · constructor
      · refine Or.inr ⟨by simp [cleanUp, hw], ?_⟩
        simp [cleanUp, hw, relCount, List.countP_append, List.countP_cons,
              isRel, isClear] at hc ⊢
        exact hc
      · simp only [cleanUp, hw, if_true]
        exact clearBeforeRel_append_clear _ _ hord
    · rw [hf] at hw; cases hw

lemma relInv_blockPlayerW (tag : String) (st : WDState) (h : relInv st) :
    relInv (blockPlayerW tag st) := by
  refine relInv_cleanUp _ (relInv_extend st _ [Act.blockedEvtW tag] rfl rfl ?_ h)
  intro a ha
  simp at ha
  simp [ha, isRel]

lemma relInv_updateResolve (o : Opts) (err : Option String)
    (resp : Option JBody) (st : WDState) (h : relInv st) :
    relInv (updateResolve o err resp st) := by
  have hbase : relInv { st with pendingRequest := false,
                                resolvedCount := st.resolvedCount + 1 } :=
    relInv_extend st _ [] rfl (by simp) (by simp) h
  cases err with
  | some m =>
      by_cases hb : o.maxUpdateFails ≤ st.failedRequest
      · simp only [updateResolve, hb, if_true]
        exact relInv_extend _ _ [] rfl (by simp) (by simp)
          (relInv_blockPlayerW _ _ hbase)
      · simp only [updateResolve, hb, if_false]
        exact relInv_extend _ _ [] rfl (by simp) (by simp) hbase
  | none =>
      have hbase0 : relInv { st with pendingRequest := false,
                                     resolvedCount := st.resolvedCount + 1,
                                     failedRequest := 0 } :=
        relInv_extend st _ [] rfl (by simp) (by simp) h
      cases resp with
      | some r =>
          by_cases hs : r.success
          · simp only [updateResolve, hs, if_true]
            exact relInv_extend _ _ [] rfl (by simp) (by simp) hbase0
          · simp only [updateResolve, hs, Bool.false_eq_true, if_false]
            exact relInv_blockPlayerW _ _ hbase0
      | none =>
          simp only [updateResolve]
          exact relInv_blockPlayerW _ _ hbase0

lemma relInv_wdf (st : WDState) (h : relInv st) : relInv (wdf st) := by
  by_cases hp : st.pendingRequest
  · refine relInv_extend st _ [Act.updateEvt st.playerID] ?_ ?_ ?_ h <;>
      simp [wdf, hp, isRel]
  · refine relInv_extend st _
      [Act.updateEvt st.playerID,
       Act.updateReq st.playerID st.playerToken st.lasTime st.paused] ?_ ?_ ?_ h
    · simp [wdf, hp]
    · simp [wdf, hp]
    · intro a ha
      simp only [List.mem_cons, List.mem_singleton, List.not_mem_nil,
                 or_false] at ha
      rcases ha with rfl | rfl <;> simp [isRel]

lemma relInv_step (o : Opts) (st : WDState) (e : XEvent) (h : relInv st) :
    relInv (step o st e) := by
  cases e with
  | tick =>
      by_cases hw : st.watchdog = true
      · simpa [step, hw] using relInv_wdf st h
      · simpa [step, hw] using h
  | resolve err body =>
      by_cases hp : st.pendingRequest = true
      · simpa [step, hp] using relInv_updateResolve o _ _ st h
      · simpa [step, hp] using h
  | disposeEvt => exact relInv_cleanUp st h
  | beforeunload => exact relInv_cleanUp st h
  | timeupdate cur =>
      by_cases hm : !st.loadedmetadata || !st.fistSent <;>
        [exact relInv_extend st _ [] (by simp [step, onTimeupdate, hm])
           (by simp [step, onTimeupdate, hm]) (by simp) h;
         exact relInv_extend st _ [] (by simp [step, onTimeupdate, hm])
           (by simp [step, onTimeupdate, hm]) (by simp) h]
  | loadedmetadataEvt =>
      exact relInv_extend st _ [] (by simp [step]) (by simp [step]) (by simp) h
  | playstate b =>
      exact relInv_extend st _ [] (by simp [step]) (by simp [step]) (by simp) h

lemma relInv_run (o : Opts) (evs : List XEvent) (st : WDState)
    (h : relInv st) : relInv (run o st evs) := by
  induction evs generalizing st with
  | nil => simpa [run] using h
  | cons e t ih =>
      simp only [run, List.foldl_cons]
      exact ih _ (relInv_step o st e h)

lemma relInv_start (o : Opts) : relInv (startState o) := by
  refine ⟨Or.inl ⟨?_, ?_⟩, ?_⟩ <;>
    simp [startState, wdf, initWDState, relCount, clearBeforeRel,
          List.countP_cons, isRel, isClear]

lemma watchdog_false_step (o : Opts) (st : WDState) (e : XEvent)
    (h : st.watchdog = false) : (step o st e).watchdog = false := by
  cases e with
  | tick => simp [step, h]
  | resolve err body =>
      have hbw : ∀ (tag : String) (s : WDState),
          (blockPlayerW tag s).watchdog = false :=
        fun tag s => (cleanUp_facts _).2.2.2.1
      by_cases hp : st.pendingRequest = true
      · simp only [step, hp, if_true]
        unfold updateResolve
        cases (makeRequestCb err body).1 with
        | some m =>
            by_cases hb : o.maxUpdateFails ≤ st.failedRequest <;>
              simp [hb, hbw, h]
        | none =>
            cases (makeRequestCb err body).2 with
            | some r => by_cases hs : r.success <;> simp [hs, hbw, h]
            | none => simp [hbw, h]
      · simp [step, hp, h]
  | disposeEvt => exact (cleanUp_facts st).2.2.2.1
  | beforeunload => exact (cleanUp_facts st).2.2.2.1
  | timeupdate cur =>
      have : (onTimeupdate cur st).watchdog = st.watchdog := by
        unfold onTimeupdate; split <;> rfl
      simpa [step, this] using h
  | loadedmetadataEvt => simp [step, h]
  | playstate b => simp [step, h]

lemma watchdog_false_run (o : Opts) (evs : List XEvent) (st : WDState)
    (h : st.watchdog = false) : (run o st evs).watchdog = false := by
  induction evs generalizing st with
  | nil => simpa [run] using h
  | cons e t ih =>
      simp only [run, List.foldl_cons]
      exact ih _ (watchdog_false_step o st e h)

/-- C4: for every started session and every sequence of external events
containing at least one shutdown trigger (player dispose or page
beforeunload, in any order and multiplicity, possibly mixed with ticks,
resolutions and other events), the final log contains exactly one release
request to disposeurl, and the first timer cancellation precedes the first
(hence only) release request. -/
theorem C4_release_exactly_once (o : Opts) (evs : List XEvent)
    (h : XEvent.disposeEvt ∈ evs ∨ XEvent.beforeunload ∈ evs) :
    relCount (run o (startState o) evs).log = 1 ∧
    clearBeforeRel (run o (startState o) evs).log = true := by
  have hinv : relInv (run o (startState o) evs) :=
    relInv_run o evs _ (relInv_start o)
  have hwf : (run o (startState o) evs).watchdog = false := by
    have key : ∀ (l1 l2 : List XEvent) (e : XEvent),
        (∀ st : WDState, (step o st e).watchdog = false) →
        (run o (startState o) (l1 ++ e :: l2)).watchdog = false := by
      intro l1 l2 e he
      have : run o (startState o) (l1 ++ e :: l2) =
          run o (step o (run o (startState o) l1) e) l2 := by
        simp [run, List.foldl_append]
      rw [this]
      exact watchdog_false_run o l2 _ (he _)
    rcases h with h | h <;> obtain ⟨l1, l2, rfl⟩ := List.append_of_mem h
    · exact key l1 l2 _ (fun st => (cleanUp_facts st).2.2.2.1)
    · exact key l1 l2 _ (fun st => (cleanUp_facts st).2.2.2.1)
  obtain ⟨hcase, hord⟩ := hinv
  rcases hcase with ⟨ht, _⟩ | ⟨_, hc⟩
  · rw [hwf] at ht; cases ht
  · exact ⟨hc, hord⟩

/-- C4 witness: disposing twice (and then seeing a beforeunload as well)
still yields exactly one release request, preceded by the timer
cancellation. -/
theorem C4_witness :
    (XEvent.disposeEvt ∈
       [XEvent.disposeEvt, XEvent.disposeEvt, XEvent.beforeunload] ∨
     XEvent.beforeunload ∈
       [XEvent.disposeEvt, XEvent.disposeEvt, XEvent.beforeunload]) ∧
    (relCount (run o0 (startState o0)
        [XEvent.disposeEvt, XEvent.disposeEvt, XEvent.beforeunload]).log = 1 ∧
     clearBeforeRel (run o0 (startState o0)
        [XEvent.disposeEvt, XEvent.disposeEvt, XEvent.beforeunload]).log = true) :=
  ⟨Or.inl (by decide),
   C4_release_exactly_once o0
     [XEvent.disposeEvt, XEvent.disposeEvt, XEvent.beforeunload]
     (Or.inl (by decide))⟩

/- ## At most one update request in flight (claim C5) -/

lemma inflight_inv_step (o : Opts) (st : WDState) (e : XEvent)
    (h : updReqCount st.log = st.resolvedCount + inflight st) :
    updReqCount (step o st e).log =
      (step o st e).resolvedCount + inflight (step o st e) := by
  cases e with
  | tick =>
      by_cases hw : st.watchdog = true
      · simp only [step, hw, if_true]
        rw [wdf_count st, (wdf_fields st).2.2.2, inflight, wdf_pending st]
        by_cases hp : st.pendingRequest <;> simp [hp, inflight] at h ⊢ <;> omega
      · simpa [step, hw] using h
  | resolve err body =>
      by_cases hp : st.pendingRequest = true
      · simp only [step, hp, if_true]
        obtain ⟨hc, hpend, hres⟩ :=
          updateResolve_facts o (makeRequestCb err body).1
            (makeRequestCb err body).2 st
        rw [hc, hres]
        simp only [inflight, hpend, Bool.false_eq_true, if_false]
        simp only [hp, inflight, if_true] at h
        omega
      · simpa [step, hp] using h
  | disposeEvt =>
      obtain ⟨hc, hpend, hres, _⟩ := cleanUp_facts st
      simpa [step, inflight, hc, hpend, hres] using h
  | beforeunload =>
      obtain ⟨hc, hpend, hres, _⟩ := cleanUp_facts st
      simpa [step, inflight, hc, hpend, hres] using h
  | timeupdate cur =>
      have h1 : (onTimeupdate cur st).log = st.log := by
        unfold onTimeupdate; split <;> rfl
      have h2 : (onTimeupdate cur st).resolvedCount = st.resolvedCount := by
        unfold onTimeupdate; split <;> rfl
      have h3 : (onTimeupdate cur st).pendingRequest = st.pendingRequest := by
        unfold onTimeupdate; split <;> rfl
      simpa [step, inflight, h1, h2, h3] using h
  | loadedmetadataEvt => simpa [step, inflight] using h
  | playstate b => simpa [step, inflight] using h

lemma inflight_inv_run (o : Opts) (evs : List XEvent) (st : WDState)
    (h : updReqCount st.log = st.resolvedCount + inflight st) :
    updReqCount (run o st evs).log =
      (run o st evs).resolvedCount + inflight (run o st evs) := by
  induction evs generalizing st with
  | nil => simpa [run] using h
  | cons e t ih =>
      simp only [run, List.foldl_cons]
      exact ih _ (inflight_inv_step o st e h)

/-- C5: in every reachable state of a running session the number of update
requests issued equals the number already resolved plus the in-flight flag
(so at most one request is ever outstanding); a tick arriving while the
flag is set issues no new request (it is dropped, not queued); and the
tick function issues a request exactly when the flag is clear, setting
it. -/
theorem C5_at_most_one_update_in_flight (o : Opts) (evs : List XEvent) :
    (updReqCount (run o (startState o) evs).log =
       (run o (startState o) evs).resolvedCount +
         inflight (run o (startState o) evs)) ∧
    (∀ st : WDState,
       updReqCount (step o { st with pendingRequest := true } .tick).log =
         updReqCount st.log) ∧
    (∀ st : WDState,
       updReqCount (wdf st).log =
         updReqCount st.log + (if st.pendingRequest then 0 else 1) ∧
       (wdf st).pendingRequest = true) := by
  refine ⟨?_, ?_, fun st => ⟨wdf_count st, wdf_pending st⟩⟩
  · refine inflight_inv_run o evs _ ?_
    simp [startState, wdf, initWDState, inflight, updReqCount,
          List.countP_cons, isUpdReq]
  · intro st
    by_cases hw : st.watchdog = true
    · simp only [step, hw, if_true]
      have := wdf_count { st with pendingRequest := true }
      simpa using this
    · simp [step, hw]

/- ## Startup validation and the validate call (claims C6, C7) -/

/-- C6: whenever the merged options are missing (or have an empty, hence
falsy) accessurl, updateurl or disposeurl, or the merged interval is falsy
or below 5, the plugin entry point returns at its guards: no action at all
is performed (in particular no network request) and no session or watchdog
is constructed, whatever the storage contents, generated id and eventual
response would have been. -/
theorem C6_invalid_config_aborts (u : UserOpts) (hasStorage : Bool)
    (stored : Option String) (rnd : String) (err : Option String)
    (body : BodyKind)
    (h : strFalsy (mergeOptions u).accessurl = true ∨
         strFalsy (mergeOptions u).updateurl = true ∨
         strFalsy (mergeOptions u).disposeurl = true ∨
         (mergeOptions u).interval = 0 ∨ (mergeOptions u).interval < 5) :
    concurrenceLimiterRun u hasStorage stored rnd err body = abortedInit := by
  rcases h with h | h | h | h | h
  · simp [concurrenceLimiterRun, h]
  · simp [concurrenceLimiterRun, h]
  · simp [concurrenceLimiterRun, h]
  · simp only [concurrenceLimiterRun]
    split
    · rfl
    · simp [h]
  · simp only [concurrenceLimiterRun]
    split
    · rfl
    · simp [h]

/-- C6 witness: an empty configuration (all keys absent) merges to null
URLs and the run aborts with no action and no session. -/
theorem C6_witness :
    strFalsy (mergeOptions
      { interval := none, accessurl := none, updateurl := none,
        disposeurl := none, playerID := none, startPosition := none,
        maxUpdateFails := none, requestTimeoutInMillis := none }).accessurl
      = true ∧
    concurrenceLimiterRun
      { interval := none, accessurl := none, updateurl := none,
        disposeurl := none, playerID := none, startPosition := none,
        maxUpdateFails := none, requestTimeoutInMillis := none }
      true none "r" none .empty = abortedInit :=
  ⟨by decide,
   C6_invalid_config_aborts _ true none "r" none .empty (Or.inl (by decide))⟩

/-- Classifies the validate-call resolutions the source rejects: a
transport error, or a body that is empty, unparsable, or parses with a
falsy success field. -/
def validateDenied (err : Option String) (body : BodyKind) : Bool :=
  err.isSome ||
    (match body with
     | .json j => !j.success
     | _ => true)

/-- C7: whenever the initial validate call resolves with a transport error
or without a truthy success field, the startup pipeline logs exactly the
validate request followed by the avplayerbloked notification with code
cantplay (the block call made as blockPlayer with the cantplay code, whose
reason falls back to the default message), and no watchdog or session is
ever constructed. -/
theorem C7_validate_failure_blocks (o : Opts) (err : Option String)
    (body : BodyKind) (h : validateDenied err body = true) :
    onPlayerReadyRun o err body =
      { log := [.validateReq o.playerID,
                .blockedEvtV "cantplay" defaultReason],
        session := none, recover := recoverInit } := by
  cases err with
  | some e => simp [onPlayerReadyRun, makeRequestCb]
  | none =>
      cases body with
      | empty => simp [onPlayerReadyRun, makeRequestCb]
      | malformed => simp [onPlayerReadyRun, makeRequestCb]
      | json j =>
          have hj : j.success = false := by
            simpa [validateDenied] using h
          simp [onPlayerReadyRun, makeRequestCb, hj]

/-- C7 witness: an explicit validate denial blocks with the cantplay code
and no session. -/
theorem C7_witness :
    validateDenied none (.json deniedResp) = true ∧
    onPlayerReadyRun o0 none (.json deniedResp) =
      { log := [.validateReq o0.playerID,
                .blockedEvtV "cantplay" defaultReason],
        session := none, recover := recoverInit } :=
  ⟨by decide, C7_validate_failure_blocks o0 none (.json deniedResp) (by decide)⟩

/- ## Recovered position handling (claim C8) -/

/-- C8 (code-bug evaluation at the failing input, a validate response
carrying position 45): contrary to the claim, `recoverStatus` writes 45 to
the currentTime property of the player immediately, before any
loadedmetadata event (shadowing the videojs currentTime method instead of
seeking), and when loadedmetadata later fires, the registered arrow
handler writes 45 to the currentTime field of the plugin instance, so the
actual playback position is never changed at any point. The second half of
the claim does hold: the first timeupdate notification after start is
discarded by the watchdog (it only sets the fistSent flag and leaves
lasTime untouched). -/
theorem C8_recovered_position_never_applied :
    (recoverStatus okPos45 recoverInit).playerCurrentTimeProp = some 45 ∧
    (recoverStatus okPos45 recoverInit).playbackPosition = 0 ∧
    (recoverOnLoadedmetadata okPos45
       (recoverStatus okPos45 recoverInit)).playbackPosition = 0 ∧
    (recoverOnLoadedmetadata okPos45
       (recoverStatus okPos45 recoverInit)).pluginCurrentTime = some 45 ∧
    (run o0 (startState o0) [.loadedmetadataEvt, .timeupdate 0]).lasTime =
      (startState o0).lasTime ∧
    (run o0 (startState o0) [.loadedmetadataEvt, .timeupdate 0]).fistSent =
      true := by
  decide

/- ## Length of generated identifiers (claim C9) -/

/-- C9 counterexample: when Math.random() returns 0.5 (the mantissa value
k = 2 to the 52nd), the generated token is the single character g, far
below the claimed minimum of 20 characters. -/
theorem C9_counterexample :
    generateRandom (2 ^ 52) = "g" ∧
    ¬ (20 ≤ (generateRandom (2 ^ 52)).length) := by
  decide

lemma length_dropWhile_le {α : Type} (p : α → Bool) (l : List α) :
    (l.dropWhile p).length ≤ l.length := by
  induction l with
  | nil => simp
  | cons a t ih =>
      by_cases h : p a
      · simp only [List.dropWhile, h]
        exact Nat.le_succ_of_le ih
      · simp [List.dropWhile, h]

/-- C9 amended: the random part of every generated identifier is the
base-32 fraction expansion of the 53-bit random value, hence at most 11
characters long (and possibly much shorter, even empty when the random
value is 0) — for every possible random value, strictly below the 20
characters the claim requires. The full ids only add the 4-character
ssi- or rdm- marker. -/
theorem C9_amended_token_at_most_11 (k : Nat) :
    (generateRandom k).length ≤ 11 ∧ (generateRandom k).length < 20 := by
  have h1 : (stripTrailing (fracDigitsBE (4 * k))).length ≤
      (fracDigitsBE (4 * k)).length := by
    unfold stripTrailing
    calc ((fracDigitsBE (4 * k)).reverse.dropWhile
            (fun d => d = 0)).reverse.length
        = ((fracDigitsBE (4 * k)).reverse.dropWhile
            (fun d => d = 0)).length := List.length_reverse _
      _ ≤ (fracDigitsBE (4 * k)).reverse.length :=
          length_dropWhile_le _ _
      _ = (fracDigitsBE (4 * k)).length := List.length_reverse _
  have h2 : (fracDigitsBE (4 * k)).length = 11 := by simp [fracDigitsBE]
  have h3 : (generateRandom k).length ≤ 11 := by
    have : (generateRandom k).length =
        (stripTrailing (fracDigitsBE (4 * k))).length := by
      simp [generateRandom, String.length]
    omega
  exact ⟨h3, by omega⟩

end ConcurrenceLimiter

